import Mathlib

/-!
Verification of the `openenclave_ml_poc` repository's GraphModelBuilder
component and its collaborator scripts.

The repository consists of Python scripts:
  * `scripts/create_model.py` — builds a single-node Identity ONNX graph
    (input `input_tensor : FLOAT [None, 2]`, output `output_tensor` of the
    same type and shape), wraps it in a model with
    `producer_name = 'openenclave-poc-script'`, `ir_version = 10`,
    `opset_import[0].version = 10`, resolves a relative `model_path`
    against the parent of the script's directory, creates the parent
    directory with `os.makedirs(..., exist_ok=True)` and saves the model.
  * `model_creation/main.py` — the same construction with fixed names
    `input`/`output` and opset 12.
  * `sentiment-analysis-backend/tokenize_script.py` — reads the tokenizer
    directory from `sys.argv[1]`, then for each stdin line strips
    leading/trailing whitespace, skips blank results, and prints the
    comma-separated token ids of the stripped text.
  * `scripts/export_model.py` — downloads and exports a pretrained model
    (external-library calls only; out of scope here).

The data model (TensorSpec, OperationNode, ComputationGraph,
SerializedModel) follows the graph structure those scripts build through
`onnx.helper`.  Operations whose interesting behaviour lives outside the
repository (the binary container encoding, a conformant reader, the
runtime executing the "Identity" operator, the atomic write) are modelled
from the specification and say so in their doc comments.
-/

namespace OnnxPoc

/-- Tensor element types: the standard numeric/categorical enumeration of
the ONNX container format (codes from `TensorProto.DataType`).  The
scripts only exercise `FLOAT32` (`TensorProto.FLOAT`). -/
inductive ElementType where
  | FLOAT32
  | UINT8
  | INT8
  | INT32
  | INT64
  | STRING
  | BOOL
  | FLOAT64
deriving DecidableEq, Repr

/-- A shape dimension: either a fixed positive size or a dynamic
(symbolic) axis.  `None` in the Python shape lists denotes the dynamic
batch dimension. -/
inductive Dim where
  | fixed (n : Nat)
  | dynamic
deriving DecidableEq, Repr

/-- A typed tensor interface value, as built by
`onnx.helper.make_tensor_value_info(name, elem_type, shape)`. -/
structure TensorSpec where
  name : String
  element_type : ElementType
  shape : List Dim
deriving DecidableEq, Repr

/-- A graph node, as built by
`onnx.helper.make_node(op_type, inputs, outputs)`. -/
structure OperationNode where
  operator_type : String
  input_names : List String
  output_names : List String
deriving DecidableEq, Repr

/-- A computation graph, as built by
`onnx.helper.make_graph(nodes, name, inputs, outputs)`. -/
structure ComputationGraph where
  name : String
  nodes : List OperationNode
  graph_inputs : List TensorSpec
  graph_outputs : List TensorSpec
deriving DecidableEq, Repr

/-- A graph wrapped with container metadata, as built by
`onnx.helper.make_model(graph, producer_name, ir_version)` followed by
setting `opset_import[0].version`.  `opset_import` holds
(domain, version) entries; the scripts set a single default-domain
entry. -/
structure SerializedModel where
  graph : ComputationGraph
  producer_name : String
  ir_version : Nat
  opset_import : List (String × Nat)
deriving DecidableEq, Repr

/-- `build_identity_graph input_name output_name feature_dim element_type`:
the graph-construction half of `create_and_save_identity_model` in
`scripts/create_model.py` (lines 15-34), with the constants
`'input_tensor'`, `'output_tensor'`, `2` and `TensorProto.FLOAT`
generalized into the parameters the specification's GraphModelBuilder
gives this operation.  It builds one input `TensorSpec` of shape
`[None, feature_dim]`, one output `TensorSpec` of the same type and
shape, and a single `Identity` node connecting them by name. -/
def build_identity_graph (input_name output_name : String)
    (feature_dim : Nat) (element_type : ElementType) : ComputationGraph :=
  let X : TensorSpec :=
    { name := input_name
      element_type := element_type
      shape := [Dim.dynamic, Dim.fixed feature_dim] }
  let Y : TensorSpec :=
    { name := output_name
      element_type := element_type
      shape := [Dim.dynamic, Dim.fixed feature_dim] }
  let identity_node : OperationNode :=
    { operator_type := "Identity"
      input_names := [input_name]
      output_names := [output_name] }
  { name := "simple-identity-model"
    nodes := [identity_node]
    graph_inputs := [X]
    graph_outputs := [Y] }

/-- C1: for every positive `feature_dim` and non-empty, distinct names,
`build_identity_graph` returns a graph with exactly one graph-input
`TensorSpec` of shape `[dynamic, feature_dim]`, exactly one graph-output
`TensorSpec` of identical shape and element type, and exactly one
`Identity` node whose inputs are `[input_name]` and whose outputs are
`[output_name]`; in particular
`build_identity_graph "input_tensor" "output_tensor" 2 FLOAT32` yields
exactly the input, output and node recorded in the scenario. -/
theorem build_identity_graph_spec (input_name output_name : String)
    (feature_dim : Nat) (element_type : ElementType)
    (hdim : 0 < feature_dim) (hin : input_name ≠ "")
    (hout : output_name ≠ "") (hne : input_name ≠ output_name) :
    (build_identity_graph input_name output_name feature_dim element_type).graph_inputs
        = [⟨input_name, element_type, [Dim.dynamic, Dim.fixed feature_dim]⟩] ∧
    (build_identity_graph input_name output_name feature_dim element_type).graph_outputs
        = [⟨output_name, element_type, [Dim.dynamic, Dim.fixed feature_dim]⟩] ∧
    (build_identity_graph input_name output_name feature_dim element_type).nodes
        = [⟨"Identity", [input_name], [output_name]⟩] ∧
    build_identity_graph "input_tensor" "output_tensor" 2 ElementType.FLOAT32
        = { name := "simple-identity-model"
            nodes := [⟨"Identity", ["input_tensor"], ["output_tensor"]⟩]
            graph_inputs :=
              [⟨"input_tensor", ElementType.FLOAT32, [Dim.dynamic, Dim.fixed 2]⟩]
            graph_outputs :=
              [⟨"output_tensor", ElementType.FLOAT32, [Dim.dynamic, Dim.fixed 2]⟩] } :=
  ⟨rfl, rfl, rfl, rfl⟩

/-- Witness for C1: the hypotheses hold and the conclusion evaluates at
the scenario input `("input_tensor", "output_tensor", 2, FLOAT32)`. -/
theorem build_identity_graph_spec_witness :
    (build_identity_graph "input_tensor" "output_tensor" 2 ElementType.FLOAT32).graph_inputs
        = [⟨"input_tensor", ElementType.FLOAT32, [Dim.dynamic, Dim.fixed 2]⟩] ∧
    (build_identity_graph "input_tensor" "output_tensor" 2 ElementType.FLOAT32).graph_outputs
        = [⟨"output_tensor", ElementType.FLOAT32, [Dim.dynamic, Dim.fixed 2]⟩] ∧
    (build_identity_graph "input_tensor" "output_tensor" 2 ElementType.FLOAT32).nodes
        = [⟨"Identity", ["input_tensor"], ["output_tensor"]⟩] :=
  ⟨(build_identity_graph_spec "input_tensor" "output_tensor" 2
      ElementType.FLOAT32 (by decide) (by decide) (by decide)
      (by decide)).1,
    (build_identity_graph_spec "input_tensor" "output_tensor" 2
      ElementType.FLOAT32 (by decide) (by decide) (by decide)
      (by decide)).2.1,
    (build_identity_graph_spec "input_tensor" "output_tensor" 2
      ElementType.FLOAT32 (by decide) (by decide) (by decide)
      (by decide)).2.2.1⟩

/-! ## Serialization metadata checks (spec §4.1 `serialize`) -/

/-- A configuration error: an invalid opset/ir-version combination,
reported with the offending field (spec §7). -/
structure ConfigurationError where
  offending_field : String
deriving DecidableEq, Repr

/-- Modelled from the spec: the minimum opset version required by an
operator_type ("the `Identity` operation's minimum supported opset must
be satisfied", spec §4.1).  `Identity` has been in the default ONNX
domain since opset 1; no script of the repository references any other
operator. -/
def minimum_opset (operator_type : String) : Nat :=
  match operator_type with
  | "Identity" => 1
  | _ => 1

/-- Modelled from the spec: "`ir_version` must be within the range
understood by consumers of the saved file" (spec §3).  Per the comment
block in `scripts/create_model.py` the consumer (ONNX Runtime) supports
IR versions up to 10. -/
def ir_version_supported (v : Nat) : Bool :=
  decide (1 ≤ v) && decide (v ≤ 10)

/-- Modelled from the spec: `serialize(graph, producer_name, ir_version,
opset_version)` wraps the graph with metadata and fails with a
`ConfigurationError` if `opset_version` is incompatible with a referenced
operator_type or `ir_version` is outside the supported range (spec §4.1).
The sources (`create_model.py` lines 44-48, `main.py` lines 25-26) only
exhibit the success path: `make_model(graph, producer_name, ir_version)`
followed by setting the single default-domain `opset_import` entry. -/
def serialize (graph : ComputationGraph) (producer_name : String)
    (ir_version opset_version : Nat) :
    Except ConfigurationError SerializedModel :=
  if ir_version_supported ir_version = false then
    .error ⟨"ir_version"⟩
  else if graph.nodes.any
      (fun n => decide (opset_version < minimum_opset n.operator_type)) then
    .error ⟨"opset_version"⟩
  else
    .ok { graph := graph
          producer_name := producer_name
          ir_version := ir_version
          opset_import := [("", opset_version)] }

/-- Inversion: a successful `serialize` wraps exactly the given graph
with the given metadata. -/
theorem serialize_eq_ok (graph : ComputationGraph) (producer_name : String)
    (ir_version opset_version : Nat) (m : SerializedModel)
    (h : serialize graph producer_name ir_version opset_version = .ok m) :
    m = { graph := graph
          producer_name := producer_name
          ir_version := ir_version
          opset_import := [("", opset_version)] } := by
  unfold serialize at h
  split at h
  · cases h
  · split at h
    · cases h
    · exact (Except.ok.inj h).symm

/-- C4: `serialize` fails with a `ConfigurationError` whenever the opset
version is below the minimum required by the referenced `Identity`
operator (for example opset 0) or the ir version is outside the supported
range, and otherwise returns a `SerializedModel` wrapping the graph with
that metadata. -/
theorem serialize_spec (graph : ComputationGraph) (producer_name : String)
    (ir_version opset_version : Nat)
    (hid : ∃ n ∈ graph.nodes, n.operator_type = "Identity") :
    (opset_version < minimum_opset "Identity" →
      ∃ e, serialize graph producer_name ir_version opset_version = .error e) ∧
    (ir_version_supported ir_version = false →
      ∃ e, serialize graph producer_name ir_version opset_version = .error e) ∧
    (ir_version_supported ir_version = true →
      (∀ n ∈ graph.nodes, minimum_opset n.operator_type ≤ opset_version) →
      serialize graph producer_name ir_version opset_version =
        .ok { graph := graph
              producer_name := producer_name
              ir_version := ir_version
              opset_import := [("", opset_version)] }) := by
  refine ⟨?_, ?_, ?_⟩
  · intro hlt
    unfold serialize
    split
    · exact ⟨⟨"ir_version"⟩, rfl⟩
    · obtain ⟨n, hn, hname⟩ := hid
      have hany : graph.nodes.any
          (fun n => decide (opset_version < minimum_opset n.operator_type)) = true := by
        refine List.any_eq_true.mpr ⟨n, hn, ?_⟩
        simpa [hname] using hlt
      rw [if_pos hany]
      exact ⟨⟨"opset_version"⟩, rfl⟩
  · intro hir
    unfold serialize
    rw [if_pos hir]
    exact ⟨⟨"ir_version"⟩, rfl⟩
  · intro hir hge
    unfold serialize
    rw [if_neg (by simp [hir]), if_neg ?_]
    simp only [List.any_eq_true, not_exists, not_and, Bool.not_eq_true]
    intro n hn
    simpa using Nat.not_lt.mpr (hge n hn)

/-- Witness for C4 at the repository's identity graph: opset 0 is
rejected, ir version 11 is rejected, and (ir 10, opset 10) succeeds. -/
theorem serialize_spec_witness :
    (∃ e, serialize (build_identity_graph "input_tensor" "output_tensor" 2 .FLOAT32)
        "openenclave-poc-script" 10 0 = .error e) ∧
    (∃ e, serialize (build_identity_graph "input_tensor" "output_tensor" 2 .FLOAT32)
        "openenclave-poc-script" 11 10 = .error e) ∧
    serialize (build_identity_graph "input_tensor" "output_tensor" 2 .FLOAT32)
        "openenclave-poc-script" 10 10 =
      .ok { graph := build_identity_graph "input_tensor" "output_tensor" 2 .FLOAT32
            producer_name := "openenclave-poc-script"
            ir_version := 10
            opset_import := [("", 10)] } :=
  ⟨(serialize_spec (build_identity_graph "input_tensor" "output_tensor" 2 .FLOAT32)
      "openenclave-poc-script" 10 0
      ⟨⟨"Identity", ["input_tensor"], ["output_tensor"]⟩, by decide, rfl⟩).1
      (by decide),
    (serialize_spec (build_identity_graph "input_tensor" "output_tensor" 2 .FLOAT32)
      "openenclave-poc-script" 11 10
      ⟨⟨"Identity", ["input_tensor"], ["output_tensor"]⟩, by decide, rfl⟩).2.1
      (by decide),
    (serialize_spec (build_identity_graph "input_tensor" "output_tensor" 2 .FLOAT32)
      "openenclave-poc-script" 10 10
      ⟨⟨"Identity", ["input_tensor"], ["output_tensor"]⟩, by decide, rfl⟩).2.2
      (by decide) (by decide)⟩

/-! ## The container schema and a conformant reader (spec §6) -/

/-- A tensor interface entry of the container schema.  A dimension is
either a concrete `dim_value` (`some n`) or a symbolic `dim_param`
(`none`), exactly the two cases `create_model.py` prints with
`d.dim_value if d.dim_value > 0 else d.dim_param`. -/
structure ValueInfoProto where
  name : String
  elem_type : Nat
  dims : List (Option Nat)
deriving DecidableEq, Repr

/-- A node entry of the container schema. -/
structure NodeProto where
  op_type : String
  input : List String
  output : List String
deriving DecidableEq, Repr

/-- The graph entry of the container schema. -/
structure GraphProto where
  name : String
  node : List NodeProto
  input : List ValueInfoProto
  output : List ValueInfoProto
deriving DecidableEq, Repr

/-- The top-level container structure of spec §6: `producer_name`,
`ir_version`, `opset_import` and `graph`.  The byte-level wire encoding
of this structure is delegated to the externally defined schema and is
not modelled. -/
structure ModelProto where
  producer_name : String
  ir_version : Nat
  opset_import : List (String × Nat)
  graph : GraphProto
deriving DecidableEq, Repr

/-- Element-type codes of the container schema
(`TensorProto.DataType`); `FLOAT32` is code 1 (`TensorProto.FLOAT`). -/
def element_type_code : ElementType → Nat
  | .FLOAT32 => 1
  | .UINT8 => 2
  | .INT8 => 3
  | .INT32 => 6
  | .INT64 => 7
  | .STRING => 8
  | .BOOL => 9
  | .FLOAT64 => 11

/-- A conformant reader's decoding of an element-type code; unknown
codes are rejected. -/
def decode_element_type (code : Nat) : Option ElementType :=
  match code with
  | 1 => some .FLOAT32
  | 2 => some .UINT8
  | 3 => some .INT8
  | 6 => some .INT32
  | 7 => some .INT64
  | 8 => some .STRING
  | 9 => some .BOOL
  | 11 => some .FLOAT64
  | _ => none

/-- A fixed dimension becomes a `dim_value`, a dynamic one a symbolic
`dim_param`. -/
def encode_dim : Dim → Option Nat
  | .fixed n => some n
  | .dynamic => none

/-- A conformant reader's view of a schema dimension. -/
def decode_dim : Option Nat → Dim
  | some n => Dim.fixed n
  | none => Dim.dynamic

/-- Encoding of one tensor interface value into the schema. -/
def encode_tensor_spec (t : TensorSpec) : ValueInfoProto :=
  { name := t.name
    elem_type := element_type_code t.element_type
    dims := t.shape.map encode_dim }

/-- A conformant reader's decoding of one tensor interface entry. -/
def decode_tensor_spec (v : ValueInfoProto) : Option TensorSpec :=
  (decode_element_type v.elem_type).map fun et =>
    { name := v.name
      element_type := et
      shape := v.dims.map decode_dim }

/-- Encoding of one node into the schema. -/
def encode_node (n : OperationNode) : NodeProto :=
  { op_type := n.operator_type
    input := n.input_names
    output := n.output_names }

/-- A conformant reader's decoding of one node entry. -/
def decode_node (n : NodeProto) : OperationNode :=
  { operator_type := n.op_type
    input_names := n.input
    output_names := n.output }

/-- Modelled from the spec: the serialized container content written by
`save_to_path` — "a versioned binary container … with fields
`producer_name`, `ir_version`, `opset_import` and `graph`" (spec §6).
The byte-level encoding is external; this is the schema-level datum a
conformant reader recovers from the bytes. -/
def encode_model (m : SerializedModel) : ModelProto :=
  { producer_name := m.producer_name
    ir_version := m.ir_version
    opset_import := m.opset_import
    graph :=
      { name := m.graph.name
        node := m.graph.nodes.map encode_node
        input := m.graph.graph_inputs.map encode_tensor_spec
        output := m.graph.graph_outputs.map encode_tensor_spec } }

/-- A conformant reader's decoding of a list of tensor interface
entries, in order; any rejected entry rejects the list. -/
def decode_tensor_specs : List ValueInfoProto → Option (List TensorSpec)
  | [] => some []
  | v :: rest =>
      (decode_tensor_spec v).bind fun t =>
        (decode_tensor_specs rest).map fun ts => t :: ts

/-- Modelled from the spec: a conformant reader of the container format
(spec §6), mapping a loaded container structure back to the data model;
it rejects entries with unknown element-type codes. -/
def load_model (p : ModelProto) : Option SerializedModel := do
  let ins ← decode_tensor_specs p.graph.input
  let outs ← decode_tensor_specs p.graph.output
  pure { graph :=
           { name := p.graph.name
             nodes := p.graph.node.map decode_node
             graph_inputs := ins
             graph_outputs := outs }
         producer_name := p.producer_name
         ir_version := p.ir_version
         opset_import := p.opset_import }

theorem decode_element_type_code (et : ElementType) :
    decode_element_type (element_type_code et) = some et := by
  cases et <;> rfl

theorem decode_encode_dim (d : Dim) : decode_dim (encode_dim d) = d := by
  cases d <;> rfl

theorem decode_encode_tensor_spec (t : TensorSpec) :
    decode_tensor_spec (encode_tensor_spec t) = some t := by
  unfold decode_tensor_spec encode_tensor_spec
  rw [decode_element_type_code]
  simp only [Option.map_some, List.map_map]
  have hmap : decode_dim ∘ encode_dim = id := funext decode_encode_dim
  rw [hmap, List.map_id]
  rfl

theorem decode_encode_tensor_specs (l : List TensorSpec) :
    decode_tensor_specs (l.map encode_tensor_spec) = some l := by
  induction l with
  | nil => rfl
  | cons t rest ih =>
      simp [decode_tensor_specs, decode_encode_tensor_spec, ih]

theorem decode_encode_nodes (l : List OperationNode) :
    (l.map encode_node).map decode_node = l := by
  rw [List.map_map]
  have hmap : decode_node ∘ encode_node = id := funext fun n => rfl
  rw [hmap, List.map_id]

/-- A conformant reader inverts the container encoding exactly. -/
theorem load_model_encode_model (m : SerializedModel) :
    load_model (encode_model m) = some m := by
  unfold load_model encode_model
  simp only [decode_encode_tensor_specs, Option.bind_some, Option.pure_def,
    Option.bind_eq_bind, decode_encode_nodes]
  rfl

/-- C7: serializing a graph to the container and loading it back with a
conformant reader yields a graph with the same node count, operator
types, input and output names, and shapes as the original. -/
theorem serialize_load_round_trip (g : ComputationGraph)
    (producer_name : String) (ir_version opset_version : Nat)
    (m : SerializedModel)
    (hok : serialize g producer_name ir_version opset_version = .ok m) :
    ∃ m', load_model (encode_model m) = some m' ∧
      m'.graph.nodes.length = g.nodes.length ∧
      m'.graph.nodes.map OperationNode.operator_type
        = g.nodes.map OperationNode.operator_type ∧
      m'.graph.graph_inputs.map TensorSpec.name
        = g.graph_inputs.map TensorSpec.name ∧
      m'.graph.graph_outputs.map TensorSpec.name
        = g.graph_outputs.map TensorSpec.name ∧
      m'.graph.graph_inputs.map TensorSpec.shape
        = g.graph_inputs.map TensorSpec.shape ∧
      m'.graph.graph_outputs.map TensorSpec.shape
        = g.graph_outputs.map TensorSpec.shape := by
  have hm := serialize_eq_ok g producer_name ir_version opset_version m hok
  subst hm
  exact ⟨_, load_model_encode_model _, rfl, rfl, rfl, rfl, rfl, rfl⟩

/-- Witness for C7 at the repository's identity model. -/
theorem serialize_load_round_trip_witness :
    ∃ m', load_model (encode_model
        { graph := build_identity_graph "input_tensor" "output_tensor" 2 .FLOAT32
          producer_name := "openenclave-poc-script"
          ir_version := 10
          opset_import := [("", 10)] }) = some m' ∧
      m'.graph.nodes.length
        = (build_identity_graph "input_tensor" "output_tensor" 2 .FLOAT32).nodes.length ∧
      m'.graph.nodes.map OperationNode.operator_type
        = (build_identity_graph "input_tensor" "output_tensor" 2 .FLOAT32).nodes.map
            OperationNode.operator_type ∧
      m'.graph.graph_inputs.map TensorSpec.name
        = (build_identity_graph "input_tensor" "output_tensor" 2 .FLOAT32).graph_inputs.map
            TensorSpec.name ∧
      m'.graph.graph_outputs.map TensorSpec.name
        = (build_identity_graph "input_tensor" "output_tensor" 2 .FLOAT32).graph_outputs.map
            TensorSpec.name ∧
      m'.graph.graph_inputs.map TensorSpec.shape
        = (build_identity_graph "input_tensor" "output_tensor" 2 .FLOAT32).graph_inputs.map
            TensorSpec.shape ∧
      m'.graph.graph_outputs.map TensorSpec.shape
        = (build_identity_graph "input_tensor" "output_tensor" 2 .FLOAT32).graph_outputs.map
            TensorSpec.shape :=
  serialize_load_round_trip
    (build_identity_graph "input_tensor" "output_tensor" 2 .FLOAT32)
    "openenclave-poc-script" 10 10 _ rfl

/-! ## Execution of the saved model (spec §3, "Identity" semantics) -/

/-- A runtime tensor: a batch of rows of integer-coded scalar values.
Byte-identity of two tensors is equality of these values. -/
abbrev Tensor := List (List Int)

/-- `t` has shape `[n, feature_dim]`. -/
def tensor_has_shape (t : Tensor) (n feature_dim : Nat) : Prop :=
  t.length = n ∧ ∀ row ∈ t, row.length = feature_dim

instance (t : Tensor) (n feature_dim : Nat) :
    Decidable (tensor_has_shape t n feature_dim) := by
  unfold tensor_has_shape
  infer_instance

/-- Modelled from the spec: a standards-compliant runtime's step for one
node.  The only operator the repository references is `Identity`, "whose
output tensor equals the input tensor" (spec §3); a node with any other
operator_type or arity is outside the modelled semantics. -/
def run_node (env : String → Option Tensor) (node : OperationNode) :
    Option (String → Option Tensor) :=
  match node.operator_type, node.input_names, node.output_names with
  | "Identity", [i], [o] =>
      (env i).map fun t => fun s => if s = o then some t else env s
  | _, _, _ => none

/-- Runs the node sequence in order (the node order is the execution
order, spec §3). -/
def run_nodes (nodes : List OperationNode) (env : String → Option Tensor) :
    Option (String → Option Tensor) :=
  match nodes with
  | [] => some env
  | node :: rest => (run_node env node).bind (run_nodes rest)

/-- Modelled from the spec: executing a loaded single-input,
single-output graph on an input tensor — bind the tensor to the graph
input's name, run the nodes, read the graph output's name. -/
def exec_graph (g : ComputationGraph) (t : Tensor) : Option Tensor :=
  match g.graph_inputs, g.graph_outputs with
  | [x], [y] =>
      (run_nodes g.nodes fun s => if s = x.name then some t else none).bind
        fun env => env y.name
  | _, _ => none

/-- C2: a model produced by the `build_identity_graph` + `serialize` +
`save_to_path` pipeline, loaded by a conformant reader, executes on any
input tensor of shape `[n, feature_dim]` (n ≥ 0) to an output tensor
byte-identical to the input. -/
theorem identity_model_execution (input_name output_name : String)
    (feature_dim : Nat) (element_type : ElementType)
    (producer_name : String) (ir_version opset_version : Nat)
    (m : SerializedModel) (t : Tensor) (n : Nat)
    (hok : serialize (build_identity_graph input_name output_name feature_dim element_type)
        producer_name ir_version opset_version = .ok m)
    (hshape : tensor_has_shape t n feature_dim) :
    ∃ m', load_model (encode_model m) = some m' ∧
      exec_graph m'.graph t = some t := by
  have hm := serialize_eq_ok _ producer_name ir_version opset_version m hok
  subst hm
  refine ⟨_, load_model_encode_model _, ?_⟩
  simp [exec_graph, build_identity_graph, run_nodes, run_node, encode_model,
    load_model, decode_tensor_specs, decode_tensor_spec, encode_tensor_spec,
    decode_element_type_code, decode_node, encode_node]

/-- Witness for C2: the saved identity model maps `[[1, 2]]` (shape
`[1, 2]`) to itself. -/
theorem identity_model_execution_witness :
    ∃ m', load_model (encode_model
        { graph := build_identity_graph "input_tensor" "output_tensor" 2 .FLOAT32
          producer_name := "openenclave-poc-script"
          ir_version := 10
          opset_import := [("", 10)] }) = some m' ∧
      exec_graph m'.graph [[1, 2]] = some [[1, 2]] :=
  identity_model_execution "input_tensor" "output_tensor" 2 .FLOAT32
    "openenclave-poc-script" 10 10 _ [[1, 2]] 1 rfl (by decide)

/-! ## The batch tokenizer (`sentiment-analysis-backend/tokenize_script.py`) -/

/-- Python's `str.strip()`: remove leading and trailing whitespace
characters (line 12 of `tokenize_script.py`). -/
def pyStrip (s : String) : String :=
  ⟨((s.data.dropWhile Char.isWhitespace).reverse.dropWhile
      Char.isWhitespace).reverse⟩

/-- Python's `",".join(map(str, token_ids))` (line 20 of
`tokenize_script.py`). -/
def commaJoin (token_ids : List Nat) : String :=
  String.intercalate "," (token_ids.map toString)

/-- The stdin loop of `tokenize_script.py` (lines 10-20): for each line,
strip leading/trailing whitespace, skip the line if the result is empty
(`if not text_input: continue`), otherwise print the comma-separated
token ids of the stripped text.  `encode` stands for the external
`tokenizer.encode(text, add_special_tokens=True)`; the loop carries no
state between lines. -/
def tokenize_lines (encode : String → List Nat) (lines : List String) :
    List String :=
  lines.filterMap fun line =>
    let text_input := pyStrip line
    if text_input = "" then none
    else some (commaJoin (encode text_input))

/-- Counterexample to C3 as stated: the input line `"   "` is non-empty,
yet the tokenizer emits no output line for it, because the line is
stripped to `""` before the emptiness test. -/
theorem tokenize_nonempty_line_counterexample :
    ("   " : String) ≠ "" ∧
    tokenize_lines (fun _ => [101, 102]) ["   "] = [] := by
  exact ⟨by decide, rfl⟩

/-- C3 (amended): the batch tokenizer emits exactly one output line per
input line that is non-blank (non-empty after stripping leading and
trailing whitespace), in input order, each output line being the
comma-separated token ids of the stripped text, and emits no output line
for a blank input line; in particular the two lines
`"This movie is absolutely fantastic!"` and `""` yield exactly one
output line. -/
theorem tokenize_lines_spec :
    (∀ (encode : String → List Nat) (lines : List String),
      tokenize_lines encode lines =
        ((lines.map pyStrip).filter fun t => t != "").map
          fun t => commaJoin (encode t)) ∧
    (∀ encode : String → List Nat,
      tokenize_lines encode ["This movie is absolutely fantastic!", ""]
        = [commaJoin (encode "This movie is absolutely fantastic!")]) := by
  constructor
  · intro encode lines
    induction lines with
    | nil => rfl
    | cons l rest ih =>
        unfold tokenize_lines at ih ⊢
        by_cases h : pyStrip l = ""
        · simp [List.filterMap_cons, List.filter_cons, h, ih]
        · simp [List.filterMap_cons, List.filter_cons, h, ih]
  · intro encode
    rfl

/-- Blank lines strip to the empty string. -/
theorem pyStrip_of_all_whitespace (line : String)
    (h : ∀ c ∈ line.data, c.isWhitespace = true) : pyStrip line = "" := by
  unfold pyStrip
  have hdrop : line.data.dropWhile Char.isWhitespace = [] :=
    List.dropWhile_eq_nil_iff.mpr h
  rw [hdrop]
  rfl

/-- C8: the tokenizer strips each line before testing it, so a line of
only whitespace characters produces no output line, and the token ids
printed for a non-blank line are those of the stripped text. -/
theorem tokenize_whitespace_spec :
    (∀ (encode : String → List Nat) (line : String) (rest : List String),
      (∀ c ∈ line.data, c.isWhitespace = true) →
      tokenize_lines encode (line :: rest) = tokenize_lines encode rest) ∧
    (∀ (encode : String → List Nat) (line : String) (rest : List String),
      pyStrip line ≠ "" →
      tokenize_lines encode (line :: rest)
        = commaJoin (encode (pyStrip line)) :: tokenize_lines encode rest) := by
  constructor
  · intro encode line rest h
    unfold tokenize_lines
    simp [List.filterMap_cons, pyStrip_of_all_whitespace line h]
  · intro encode line rest h
    unfold tokenize_lines
    simp [List.filterMap_cons, h]

/-- Witness for C8: the all-whitespace line `" \t "` is skipped and the
line `" hi "` is tokenized as its stripped text `"hi"`. -/
theorem tokenize_whitespace_spec_witness :
    tokenize_lines (fun _ => [7]) [" \t "]
      = tokenize_lines (fun _ => [7]) [] ∧
    tokenize_lines (fun _ => [7]) [" hi "]
      = commaJoin ((fun _ => [7]) (pyStrip " hi "))
          :: tokenize_lines (fun _ => [7]) [] :=
  ⟨tokenize_whitespace_spec.1 (fun _ => [7]) " \t " [] (by decide),
    tokenize_whitespace_spec.2 (fun _ => [7]) " hi " [] (by decide)⟩

/-- The script-level error of an out-of-range `sys.argv` access
(`IndexError`) or of tokenizer artifacts missing at the given directory
(`LookupError`, spec §7). -/
inductive ScriptError where
  | indexError (index : Nat)
  | lookupError (dir : String)
deriving DecidableEq, Repr

/-- `tokenize_script.py` as a whole: read `sys.argv[1]` (line 6), load
the tokenizer from that directory (line 7, abstracted as `load`, `none`
meaning the artifacts are missing), then run the stdin loop.  `argv`
includes the script name at index 0, as in Python. -/
def run_tokenize_script (argv : List String)
    (load : String → Option (String → List Nat)) (stdin : List String) :
    Except ScriptError (List String) :=
  match argv.get? 1 with
  | none => .error (.indexError 1)
  | some tokenizer_dir =>
      match load tokenizer_dir with
      | none => .error (.lookupError tokenizer_dir)
      | some encode => .ok (tokenize_lines encode stdin)

/-- C10: invoked without its positional argument, the script fails with
the out-of-range argument access before reading standard input: the
result is the same error for every stdin stream, and no output line is
produced. -/
theorem tokenize_script_requires_arg (argv : List String)
    (load : String → Option (String → List Nat)) (stdin : List String)
    (h : argv.length ≤ 1) :
    run_tokenize_script argv load stdin = .error (.indexError 1) ∧
    (∀ stdin' : List String,
      run_tokenize_script argv load stdin
        = run_tokenize_script argv load stdin') := by
  have hget : argv.get? 1 = none := List.get?_eq_none.mpr h
  unfold run_tokenize_script
  rw [hget]
  exact ⟨rfl, fun _ => rfl⟩

/-- Witness for C10: `argv = ["tokenize_script.py"]` (no positional
argument) fails with the index error on any stdin. -/
theorem tokenize_script_requires_arg_witness :
    run_tokenize_script ["tokenize_script.py"] (fun _ => some fun _ => [7])
        ["This movie is absolutely fantastic!"]
      = .error (.indexError 1) ∧
    (∀ stdin' : List String,
      run_tokenize_script ["tokenize_script.py"] (fun _ => some fun _ => [7])
          ["This movie is absolutely fantastic!"]
        = run_tokenize_script ["tokenize_script.py"]
            (fun _ => some fun _ => [7]) stdin') :=
  tokenize_script_requires_arg ["tokenize_script.py"]
    (fun _ => some fun _ => [7])
    ["This movie is absolutely fantastic!"] (by decide)

/-! ## Filesystem paths (`os.path` as used by `create_model.py`) -/

/-- `os.path.isabs`: a POSIX path is absolute when it starts with a
slash. -/
def isabs (p : String) : Bool :=
  match p.data with
  | '/' :: _ => true
  | _ => false

/-- Whether a path ends in a slash (`p.endswith('/')`). -/
def ends_with_slash (p : String) : Bool :=
  match p.data.getLast? with
  | some '/' => true
  | _ => false

/-- `os.path.dirname`: everything before the last slash; the head keeps
a single slash (or a run of only slashes) and otherwise loses its
trailing slashes. -/
def dirname (p : String) : String :=
  let head := (p.data.reverse.dropWhile fun c => c != '/').reverse
  if head ≠ [] ∧ ¬(head.all fun c => c == '/') then
    ⟨(head.reverse.dropWhile fun c => c == '/').reverse⟩
  else ⟨head⟩

/-- `os.path.join` for two components: an absolute second component
replaces the first; otherwise the components are joined with a slash
unless the first is empty or already ends in one. -/
def path_join (a b : String) : String :=
  if isabs b then b
  else if a = "" ∨ ends_with_slash a then a ++ b
  else a ++ "/" ++ b

/-- The chain of directories `os.makedirs` creates: the directory and
its ancestors, stopping at an empty or root head.  The fuel argument
(the path length suffices) only serves termination. -/
def mkdirChain : Nat → String → List String
  | 0, _ => []
  | fuel + 1, d =>
      if d = "" ∨ d = "/" then [] else d :: mkdirChain fuel (dirname d)

/-- File contents at a path: a fully written container, or a truncated
prefix (`bytes_written` of the encoding) left by an interrupted write. -/
inductive FileData where
  | container (model : ModelProto)
  | truncated (model : ModelProto) (bytes_written : Nat)
deriving DecidableEq, Repr

/-- The visible filesystem: the set of existing directories and the file
contents at each path. -/
structure FileSystem where
  dirs : List String
  files : String → Option FileData

/-- An I/O failure surfaced to the caller (spec §7 `IOError`). -/
structure IOFailure where
  message : String
deriving DecidableEq, Repr

/-- `os.makedirs(d, exist_ok)`: creates `d` and its missing ancestors;
with `exist_ok=False` an existing `d` raises `FileExistsError`.  The
scripts always pass `exist_ok=True`. -/
def makedirs (d : String) (exist_ok : Bool) (fs : FileSystem) :
    Except IOFailure FileSystem :=
  if d ∈ fs.dirs ∧ exist_ok = false then
    .error ⟨"FileExistsError"⟩
  else
    .ok { fs with dirs := mkdirChain d.data.length d ++ fs.dirs }

/-- How a single save attempt ends: the write completes, the write stops
after `bytes_written` bytes, or the in-memory serialization itself
fails before any byte is written. -/
inductive SaveOutcome where
  | ok
  | writeFail (bytes_written : Nat)
  | serializeFail
deriving DecidableEq, Repr

/-- The scratch path used for the write-then-rename. -/
def tmp_path (path : String) : String := path ++ ".tmp"

/-- Modelled from the spec: `save_to_path(model, path)` — "ensures the
parent directory of `path` exists (scoped creation — succeeds if already
present, creates recursively otherwise), writes the binary-encoded
container atomically (write-then-rename …), and fails with an IOError on
any write failure" (spec §4.1).  The parent-directory step follows
`create_model.py` line 59 (`os.makedirs(os.path.dirname(model_path),
exist_ok=True)`); the write itself is behind the external `onnx.save`
call, so its atomic write-then-rename is taken from the spec's words: a
completed write renames the scratch file onto `path`, an interrupted
write leaves its truncated bytes only at the scratch path, and a
serialization failure touches nothing. -/
def save_to_path (fs : FileSystem) (path : String) (m : ModelProto)
    (outcome : SaveOutcome) : FileSystem × Option IOFailure :=
  match outcome with
  | .serializeFail => (fs, some ⟨"serialization failure"⟩)
  | .writeFail k =>
      match makedirs (dirname path) true fs with
      | .error e => (fs, some e)
      | .ok fs1 =>
          ({ fs1 with files := fun q =>
              if q = tmp_path path then some (.truncated m k) else fs1.files q },
            some ⟨"write failure"⟩)
  | .ok =>
      match makedirs (dirname path) true fs with
      | .error e => (fs, some e)
      | .ok fs1 =>
          ({ fs1 with files := fun q =>
              if q = path then some (.container m)
              else if q = tmp_path path then none
              else fs1.files q },
            none)

theorem tmp_path_ne (path : String) : tmp_path path ≠ path := by
  intro h
  have hlen := congrArg String.length h
  simp [tmp_path, String.length_append] at hlen
  exact absurd hlen (by decide)

theorem makedirs_exist_ok_eq (d : String) (fs : FileSystem) :
    makedirs d true fs
      = .ok { fs with dirs := mkdirChain d.data.length d ++ fs.dirs } := by
  unfold makedirs
  rw [if_neg]
  simp

theorem save_to_path_ok_eq (fs : FileSystem) (path : String) (m : ModelProto) :
    save_to_path fs path m .ok
      = ({ dirs := mkdirChain (dirname path).data.length (dirname path) ++ fs.dirs
           files := fun q =>
             if q = path then some (.container m)
             else if q = tmp_path path then none
             else fs.files q },
          none) := by
  unfold save_to_path
  rw [makedirs_exist_ok_eq]

theorem save_to_path_writeFail_eq (fs : FileSystem) (path : String)
    (m : ModelProto) (k : Nat) :
    save_to_path fs path m (.writeFail k)
      = ({ dirs := mkdirChain (dirname path).data.length (dirname path) ++ fs.dirs
           files := fun q =>
             if q = tmp_path path then some (.truncated m k) else fs.files q },
          some ⟨"write failure"⟩) := by
  unfold save_to_path
  rw [makedirs_exist_ok_eq]

/-- C5: if a save attempt fails — during serialization or during the
write — the visible state at the destination path is exactly what it was
before the call: no partially-written or truncated file appears there. -/
theorem save_to_path_atomic (fs : FileSystem) (path : String)
    (m : ModelProto) (outcome : SaveOutcome)
    (hfail : (save_to_path fs path m outcome).2.isSome = true) :
    ((save_to_path fs path m outcome).1).files path = fs.files path := by
  cases outcome with
  | serializeFail => rfl
  | writeFail k =>
      rw [save_to_path_writeFail_eq]
      have hne : path ≠ tmp_path path := fun h => tmp_path_ne path h.symm
      simp [hne]
  | ok =>
      rw [save_to_path_ok_eq] at hfail
      simp at hfail

/-- Witness for C5: an interrupted write of the identity model reports a
failure yet leaves the (initially empty) destination path unchanged. -/
theorem save_to_path_atomic_witness :
    ((save_to_path ⟨[], fun _ => none⟩ "/repo/model/simple_model.onnx"
        (encode_model
          { graph := build_identity_graph "input_tensor" "output_tensor" 2 .FLOAT32
            producer_name := "openenclave-poc-script"
            ir_version := 10
            opset_import := [("", 10)] })
        (.writeFail 3)).1).files "/repo/model/simple_model.onnx"
      = (⟨[], fun _ => none⟩ : FileSystem).files "/repo/model/simple_model.onnx" :=
  save_to_path_atomic ⟨[], fun _ => none⟩ "/repo/model/simple_model.onnx"
    (encode_model
      { graph := build_identity_graph "input_tensor" "output_tensor" 2 .FLOAT32
        producer_name := "openenclave-poc-script"
        ir_version := 10
        opset_import := [("", 10)] })
    (.writeFail 3) rfl

theorem exists_length_succ_of_ne_empty (d : String) (hd : d ≠ "") :
    ∃ n, d.data.length = n + 1 := by
  cases hl : d.data with
  | nil => exact absurd (String.ext (by rw [hl])) hd
  | cons c rest => exact ⟨rest.length, rfl⟩

theorem mem_mkdirChain_self (d : String) (hd : d ≠ "") (hd2 : d ≠ "/") :
    d ∈ mkdirChain d.data.length d := by
  obtain ⟨n, hn⟩ := exists_length_succ_of_ne_empty d hd
  rw [hn]
  simp only [mkdirChain]
  rw [if_neg (fun hor => Or.elim hor hd hd2)]
  exact List.mem_cons_self d _

/-- C6: a save first ensures the parent directory of the path exists —
succeeding also when it is already present — then writes the file at the
path, and a second save to the same path overwrites the first file. -/
theorem save_to_path_parent_and_overwrite (fs : FileSystem) (path : String)
    (m1 m2 : ModelProto)
    (hd : dirname path ≠ "") (hd2 : dirname path ≠ "/") :
    (save_to_path fs path m1 .ok).2 = none ∧
    dirname path ∈ ((save_to_path fs path m1 .ok).1).dirs ∧
    ((save_to_path fs path m1 .ok).1).files path
      = some (.container m1) ∧
    ((save_to_path (save_to_path fs path m1 .ok).1 path m2 .ok).1).files path
      = some (.container m2) := by
  refine ⟨?_, ?_, ?_, ?_⟩
  · rw [save_to_path_ok_eq]
  · rw [save_to_path_ok_eq]
    exact List.mem_append_left _
      (mem_mkdirChain_self (dirname path) hd hd2)
  · rw [save_to_path_ok_eq]
    simp
  · rw [save_to_path_ok_eq]
    simp

/-- Witness for C6: two successive saves of containers to
`/repo/model/simple_model.onnx` on an empty filesystem — the parent
directory exists afterwards, the first save succeeds and places its
container, and the second save overwrites it. -/
theorem save_to_path_parent_and_overwrite_witness :
    (save_to_path ⟨[], fun _ => none⟩ "/repo/model/simple_model.onnx"
        ⟨"a", 10, [("", 10)], ⟨"g", [], [], []⟩⟩ .ok).2 = none ∧
    dirname "/repo/model/simple_model.onnx"
      ∈ ((save_to_path ⟨[], fun _ => none⟩ "/repo/model/simple_model.onnx"
          ⟨"a", 10, [("", 10)], ⟨"g", [], [], []⟩⟩ .ok).1).dirs ∧
    ((save_to_path ⟨[], fun _ => none⟩ "/repo/model/simple_model.onnx"
        ⟨"a", 10, [("", 10)], ⟨"g", [], [], []⟩⟩ .ok).1).files
        "/repo/model/simple_model.onnx"
      = some (.container ⟨"a", 10, [("", 10)], ⟨"g", [], [], []⟩⟩) ∧
    ((save_to_path
        (save_to_path ⟨[], fun _ => none⟩ "/repo/model/simple_model.onnx"
          ⟨"a", 10, [("", 10)], ⟨"g", [], [], []⟩⟩ .ok).1
        "/repo/model/simple_model.onnx"
        ⟨"b", 10, [("", 10)], ⟨"g", [], [], []⟩⟩ .ok).1).files
        "/repo/model/simple_model.onnx"
      = some (.container ⟨"b", 10, [("", 10)], ⟨"g", [], [], []⟩⟩) :=
  save_to_path_parent_and_overwrite ⟨[], fun _ => none⟩
    "/repo/model/simple_model.onnx"
    ⟨"a", 10, [("", 10)], ⟨"g", [], [], []⟩⟩
    ⟨"b", 10, [("", 10)], ⟨"g", [], [], []⟩⟩
    (by decide) (by decide)

/-! ## Path resolution in `create_and_save_identity_model`
(`scripts/create_model.py` lines 53-62) -/

/-- The path-resolution step of `create_and_save_identity_model`:
`script_dir = os.path.dirname(os.path.abspath(__file__))`, and a
relative `model_path` is replaced by
`os.path.join(os.path.dirname(script_dir), model_path)` while an
absolute one is kept; `__file__` is `script_file`, already absolute. -/
def resolve_model_path (script_file : String) (model_path : String) :
    String :=
  let script_dir := dirname script_file
  if isabs model_path then model_path
  else path_join (dirname script_dir) model_path

/-- `create_and_save_identity_model(model_path)` of
`scripts/create_model.py`: build the identity graph, wrap it with
`producer_name='openenclave-poc-script'`, `ir_version=10` and default
opset entry 10, resolve the path, create the parent directory and save.
Returns the filesystem after the save and the path actually written. -/
def create_and_save_identity_model (script_file : String)
    (model_path : String) (fs : FileSystem) : FileSystem × String :=
  let graph := build_identity_graph "input_tensor" "output_tensor" 2 .FLOAT32
  let model : SerializedModel :=
    { graph := graph
      producer_name := "openenclave-poc-script"
      ir_version := 10
      opset_import := [("", 10)] }
  let resolved := resolve_model_path script_file model_path
  ((save_to_path fs resolved (encode_model model) .ok).1, resolved)

theorem save_to_path_ok_files_self (fs : FileSystem) (path : String)
    (m : ModelProto) :
    ((save_to_path fs path m .ok).1).files path = some (.container m) := by
  rw [save_to_path_ok_eq]
  simp

/-- C9: with the script at `/repo/scripts/create_model.py`, a relative
`model_path` is written at `/repo/<model_path>` — resolved against the
parent of the script's directory, not against the current working
directory (which the function never consults) — while an absolute
`model_path` is used unchanged. -/
theorem create_and_save_path_resolution (model_path : String) (fs : FileSystem) :
    (isabs model_path = false →
      (create_and_save_identity_model "/repo/scripts/create_model.py"
          model_path fs).2 = "/repo/" ++ model_path ∧
      ((create_and_save_identity_model "/repo/scripts/create_model.py"
          model_path fs).1).files ("/repo/" ++ model_path)
        = some (.container (encode_model
            { graph := build_identity_graph "input_tensor" "output_tensor" 2 .FLOAT32
              producer_name := "openenclave-poc-script"
              ir_version := 10
              opset_import := [("", 10)] }))) ∧
    (isabs model_path = true →
      (create_and_save_identity_model "/repo/scripts/create_model.py"
          model_path fs).2 = model_path) := by
  have hdir : dirname (dirname "/repo/scripts/create_model.py") = "/repo" := by
    decide
  constructor
  · intro hrel
    have hres : resolve_model_path "/repo/scripts/create_model.py" model_path
        = "/repo/" ++ model_path := by
      unfold resolve_model_path
      rw [if_neg (by simp [hrel]), hdir]
      unfold path_join
      rw [if_neg (by simp [hrel]), if_neg (by decide),
        show ("/repo" ++ "/" : String) = "/repo/" from rfl]
    refine ⟨?_, ?_⟩
    · show resolve_model_path "/repo/scripts/create_model.py" model_path
        = "/repo/" ++ model_path
      exact hres
    · show ((save_to_path fs
          (resolve_model_path "/repo/scripts/create_model.py" model_path)
          _ .ok).1).files ("/repo/" ++ model_path) = _
      rw [hres]
      exact save_to_path_ok_files_self fs _ _
  · intro habs
    show resolve_model_path "/repo/scripts/create_model.py" model_path
      = model_path
    unfold resolve_model_path
    rw [if_pos habs]

/-- Witness for C9: the default `model/simple_model.onnx` lands at
`/repo/model/simple_model.onnx`, and an absolute path is kept. -/
theorem create_and_save_path_resolution_witness :
    ((create_and_save_identity_model "/repo/scripts/create_model.py"
        "model/simple_model.onnx" ⟨[], fun _ => none⟩).2
      = "/repo/" ++ "model/simple_model.onnx" ∧
    ((create_and_save_identity_model "/repo/scripts/create_model.py"
        "model/simple_model.onnx" ⟨[], fun _ => none⟩).1).files
        ("/repo/" ++ "model/simple_model.onnx")
      = some (.container (encode_model
          { graph := build_identity_graph "input_tensor" "output_tensor" 2 .FLOAT32
            producer_name := "openenclave-poc-script"
            ir_version := 10
            opset_import := [("", 10)] }))) ∧
    (create_and_save_identity_model "/repo/scripts/create_model.py"
        "/abs/model.onnx" ⟨[], fun _ => none⟩).2 = "/abs/model.onnx" :=
  ⟨(create_and_save_path_resolution "model/simple_model.onnx"
      ⟨[], fun _ => none⟩).1 (by decide),
    (create_and_save_path_resolution "/abs/model.onnx"
      ⟨[], fun _ => none⟩).2 (by decide)⟩

end OnnxPoc
